import Mathlib

/-
Verification of the open-file registry of securefs (src/sources/file_table.h):
the FileTable idle cache, the AutoClosedFileBase scoped handle, and the two
lock-guard scopes. Pointers are modelled as `Option Nat` (`none` = nullptr,
`some k` = a pointer with identity key `k`). Effects on the registry are made
explicit: every handle operation returns, besides the new handle state, the
list of `close(fileTable, fileObject)` calls it issued, in order.
-/

set_option autoImplicit false

namespace securefs

/-! ## Scoped handle: AutoClosedFileBase (file_table.h lines 63-127) -/

/-- The scoped handle `AutoClosedFileBase`: a `FileTable* m_ft` and a
`FileBase* m_fb`, each modelled as `Option Nat` pointer identities. -/
structure AutoClosedFileBase where
  m_ft : Option Nat
  m_fb : Option Nat
deriving DecidableEq, Repr

/-- Move construction (file_table.h lines 75-79): the new handle copies both
members and the source's members are set to nullptr. Returns
(constructed handle, source handle afterwards). -/
def AutoClosedFileBase.moveConstruct (other : AutoClosedFileBase) :
    AutoClosedFileBase × AutoClosedFileBase :=
  (AutoClosedFileBase.mk other.m_ft other.m_fb, AutoClosedFileBase.mk none none)

/-- Move assignment (file_table.h lines 81-87): `if (this == &other) return;`
then `swap(other)`. `self` is true when source and destination are the same
handle object. Returns ((destination afterwards, source afterwards), close
calls issued) — the assignment itself never calls close. -/
def AutoClosedFileBase.moveAssign (self : Bool) (dest src : AutoClosedFileBase) :
    (AutoClosedFileBase × AutoClosedFileBase) × List (Nat × Nat) :=
  if self then ((dest, src), []) else ((src, dest), [])

/-- `reset(fb)` (file_table.h lines 114-121): if both `m_ft` and `m_fb` are
non-null, call `m_ft->close(m_fb)`; then `m_fb = fb`. Returns the new handle
state and the close calls issued. -/
def AutoClosedFileBase.reset (h : AutoClosedFileBase) (fb : Option Nat) :
    AutoClosedFileBase × List (Nat × Nat) :=
  match h.m_ft, h.m_fb with
  | some ft, some old => (AutoClosedFileBase.mk (some ft) fb, [(ft, old)])
  | _, _ => (AutoClosedFileBase.mk h.m_ft fb, [])

/-- The destructor (file_table.h lines 89-98) runs `reset(nullptr)` inside a
try/catch. In the effect-trace model close does not throw, so the destructor
is `reset none`; the throwing variant is `destructE` below. -/
def AutoClosedFileBase.destruct (h : AutoClosedFileBase) :
    AutoClosedFileBase × List (Nat × Nat) :=
  h.reset none

/-- `release()` (file_table.h lines 108-113): return the current `m_fb`, set
`m_fb` to nullptr. It issues no close call, which the (always empty) effect
list makes explicit. -/
def AutoClosedFileBase.release (h : AutoClosedFileBase) :
    (Option Nat × AutoClosedFileBase) × List (Nat × Nat) :=
  ((h.m_fb, AutoClosedFileBase.mk h.m_ft none), [])

/-- Fallible `reset` (file_table.h lines 114-121): `closeFn ft fb` is the
outcome of `m_ft->close(m_fb)`, which may fail (error codes are `Nat`). If the
close fails the error propagates out of `reset` before `m_fb` is assigned. -/
def AutoClosedFileBase.resetE (h : AutoClosedFileBase)
    (closeFn : Nat → Nat → Except Nat Unit) (fb : Option Nat) :
    Except Nat AutoClosedFileBase :=
  match h.m_ft, h.m_fb with
  | some ft, some old =>
    match closeFn ft old with
    | Except.ok _ => Except.ok (AutoClosedFileBase.mk (some ft) fb)
    | Except.error e => Except.error e
  | _, _ => Except.ok (AutoClosedFileBase.mk h.m_ft fb)

/-- The destructor (file_table.h lines 89-98): `try { reset(nullptr); }
catch (...) {}` — any error from the close path is caught and discarded. -/
def AutoClosedFileBase.destructE (h : AutoClosedFileBase)
    (closeFn : Nat → Nat → Except Nat Unit) : Except Nat Unit :=
  match h.resetE closeFn none with
  | Except.ok _ => Except.ok ()
  | Except.error _ => Except.ok ()

/-- An operation subsequently exercised on a live handle: an explicit
`reset(fb)` or the destructor / drop path. -/
inductive HandleOp where
  | resetOp (fb : Option Nat)
  | dropOp
deriving DecidableEq, Repr

/-- Run one handle operation, returning the new state and close calls. -/
def AutoClosedFileBase.runOp (h : AutoClosedFileBase) :
    HandleOp → AutoClosedFileBase × List (Nat × Nat)
  | HandleOp.resetOp fb => h.reset fb
  | HandleOp.dropOp => h.destruct

/-- Run a sequence of handle operations, concatenating the close calls. -/
def AutoClosedFileBase.runOps (h : AutoClosedFileBase) :
    List HandleOp → AutoClosedFileBase × List (Nat × Nat)
  | [] => (h, [])
  | op :: rest =>
    (((h.runOp op).1.runOps rest).1, (h.runOp op).2 ++ ((h.runOp op).1.runOps rest).2)

/-- Number of close calls in an effect trace whose file-object argument is
`f0`. -/
def closesOf (evs : List (Nat × Nat)) (f0 : Nat) : Nat :=
  (evs.filter (fun e => decide (e.2 = f0))).length

/-! ## The registry: FileTable (file_table.h lines 21-61)

The header declares `open_as`, `create_as`, `close`, `eject` but their bodies
are in a translation unit absent from the source; those operations are
modelled from the spec (sections 4.1, 6, 7). The constants `MAX_NUM_CLOSED`
and `NUM_EJECT` and the three configuration getters are taken directly from
the header. -/

/-- file_table.h line 29: `static const int MAX_NUM_CLOSED = 101`. -/
def MAX_NUM_CLOSED : Nat := 101

/-- file_table.h line 29: `static const int NUM_EJECT = 8`. -/
def NUM_EJECT : Nat := 8

/-- Modelled from the spec: the option flag constants of constants.h (a file
absent from the source): three distinct single-bit masks for the read-only,
no-authentication and store-time options. -/
def kOptionReadOnly : Nat := 1

/-- Modelled from the spec: see `kOptionReadOnly`. -/
def kOptionNoAuthentication : Nat := 2

/-- Modelled from the spec: see `kOptionReadOnly`. -/
def kOptionStoreTime : Nat := 4

/-- A resident file object as the table sees it: concrete type tag and
reference count. -/
structure FileEnt where
  ty : Nat
  refcount : Nat
deriving DecidableEq, Repr

/-- The `FileTable` state the claims depend on: the immutable `m_flags`, the
`m_files` mapping (association list from identifier to owned file object) and
`m_closed_ids`, the idle sequence, oldest first. -/
structure FTState where
  m_flags : Nat
  m_files : List (Nat × FileEnt)
  m_closed_ids : List Nat
deriving DecidableEq, Repr

/-- Look an identifier up in the table mapping. -/
def lookupFile : List (Nat × FileEnt) → Nat → Option FileEnt
  | [], _ => none
  | p :: rest, id => if p.1 = id then some p.2 else lookupFile rest id

/-- Replace the entry of an identifier already in the table mapping. -/
def setFile : List (Nat × FileEnt) → Nat → FileEnt → List (Nat × FileEnt)
  | [], _, _ => []
  | p :: rest, id, e => if p.1 = id then (id, e) :: rest else p :: setFile rest id e

/-- Identifier membership in a list of identifiers, as a boolean. -/
def containsId : List Nat → Nat → Bool
  | [], _ => false
  | x :: rest, v => if x = v then true else containsId rest v

/-- file_table.h line 56: `(m_flags & kOptionReadOnly) != 0`. -/
def FTState.is_readonly (s : FTState) : Bool :=
  s.m_flags &&& kOptionReadOnly != 0

/-- file_table.h line 57: `(m_flags & kOptionNoAuthentication) == 0`. -/
def FTState.is_auth_enabled (s : FTState) : Bool :=
  s.m_flags &&& kOptionNoAuthentication == 0

/-- file_table.h line 58: `(m_flags & kOptionStoreTime) != 0`. -/
def FTState.is_time_stored (s : FTState) : Bool :=
  s.m_flags &&& kOptionStoreTime != 0

/-- Modelled from the spec: `FileTable::eject` (declared at file_table.h line
42, body absent from the source). Evict the oldest `NUM_EJECT` idle entries:
remove each from the table and finalize it via the Persister. Returns the new
state and the identifiers finalized, oldest first. -/
def FTState.eject (s : FTState) : FTState × List Nat :=
  (FTState.mk s.m_flags
      (s.m_files.filter (fun p => !(containsId (s.m_closed_ids.take NUM_EJECT) p.1)))
      (s.m_closed_ids.drop NUM_EJECT),
    s.m_closed_ids.take NUM_EJECT)

/-- Modelled from the spec: `FileTable::close` (declared at file_table.h line
55, body absent from the source). Decrement the object's reference count; if
it reaches zero, append its identifier to the tail of the idle sequence, and
if that sequence now exceeds `MAX_NUM_CLOSED` entries, eject. Returns the new
state and the identifiers finalized by any triggered eviction. -/
def FTState.close (s : FTState) (id : Nat) : FTState × List Nat :=
  match lookupFile s.m_files id with
  | none => (s, [])
  | some ent =>
    if ent.refcount ≤ 1 then
      if MAX_NUM_CLOSED < (s.m_closed_ids ++ [id]).length then
        FTState.eject (FTState.mk s.m_flags
          (setFile s.m_files id (FileEnt.mk ent.ty 0)) (s.m_closed_ids ++ [id]))
      else
        (FTState.mk s.m_flags
          (setFile s.m_files id (FileEnt.mk ent.ty 0)) (s.m_closed_ids ++ [id]), [])
    else
      (FTState.mk s.m_flags
        (setFile s.m_files id (FileEnt.mk ent.ty (ent.refcount - 1))) s.m_closed_ids, [])

/-- The registry-level error taxonomy of the spec (section 7); backend errors
carry an opaque code so the model can state that they propagate unchanged. -/
inductive FTError where
  | notFoundE
  | typeMismatchE
  | backendE (code : Nat)
deriving DecidableEq, Repr

/-- Look an identifier up on the backend (identifier to on-disk type tag). -/
def lookupDisk : List (Nat × Nat) → Nat → Option Nat
  | [], _ => none
  | p :: rest, id => if p.1 = id then some p.2 else lookupDisk rest id

/-- Modelled from the spec: the Object Constructor collaborator
`materialize(identifier, declared_type, create)` of section 6. `backend` maps
persisted identifiers to their type tag; `bfail = some code` simulates a
backend failure. Create materializes a fresh object of the declared type; a
plain open loads the persisted object or fails with NotFound. -/
def materialize (backend : List (Nat × Nat)) (bfail : Option Nat)
    (id ty : Nat) (create : Bool) : Except FTError FileEnt :=
  match bfail with
  | some code => Except.error (FTError.backendE code)
  | none =>
    if create then Except.ok (FileEnt.mk ty 1)
    else
      match lookupDisk backend id with
      | some dty => Except.ok (FileEnt.mk dty 1)
      | none => Except.error FTError.notFoundE

/-- Remove an identifier from the idle sequence (reactivation). -/
def removeClosedId (l : List Nat) (id : Nat) : List Nat :=
  l.filter (fun i => decide (i ≠ id))

/-- Modelled from the spec: `FileTable::open_as` / `create_as` (declared at
file_table.h lines 53-54, bodies absent from the source), spec section 4.1
`open_or_create`. If the identifier is resident: reuse must never cross
declared types — fail with TypeMismatch when the resident type differs,
otherwise reactivate (remove from the idle sequence) and bump the reference
count. If absent: ask the Constructor collaborator to materialize, propagating
its failure unchanged, and insert the new object with reference count 1. An
error result leaves the caller's state untouched. -/
def FTState.open_or_create (s : FTState) (backend : List (Nat × Nat))
    (bfail : Option Nat) (id ty : Nat) (create : Bool) :
    Except FTError (FTState × Nat) :=
  match lookupFile s.m_files id with
  | some ent =>
    if ent.ty = ty then
      Except.ok (FTState.mk s.m_flags
        (setFile s.m_files id (FileEnt.mk ent.ty (ent.refcount + 1)))
        (removeClosedId s.m_closed_ids id), id)
    else Except.error FTError.typeMismatchE
  | none =>
    match materialize backend bfail id ty create with
    | Except.error e => Except.error e
    | Except.ok ent => Except.ok (FTState.mk s.m_flags ((id, ent) :: s.m_files) s.m_closed_ids, id)

/-! ## Lock scopes (file_table.h lines 129-168) -/

/-- A lock event on a file object's intrinsic mutex, identified by the
object's pointer key. -/
inductive LockEvent where
  | acq (fb : Nat)
  | rel (fb : Nat)
deriving DecidableEq, Repr

/-- `AutoClosedFileLockGuard` scope (file_table.h lines 129-146): the
constructor performs `fp->get()->mutex().lock()` and the destructor performs
`fp->get()->mutex().unlock()`; C++ runs the destructor on every scope-exit
path (normal completion, early return, exception). `bodyEvents` are the lock
events the scope body performed before completing or failing with outcome
`bodyResult`; the result is the scope's full event trace and the body's
outcome, which the guard passes through unchanged. -/
def lockScope (fb : Nat) (bodyEvents : List LockEvent)
    (bodyResult : Except Nat Unit) : List LockEvent × Except Nat Unit :=
  (LockEvent.acq fb :: bodyEvents ++ [LockEvent.rel fb], bodyResult)

/-- Whether the mutex of file object `fb` is held after replaying an event
trace from an initially unheld state. -/
def heldAfter (tr : List LockEvent) (fb : Nat) : Bool :=
  tr.foldl
    (fun held e =>
      match e with
      | LockEvent.acq f => if f = fb then true else held
      | LockEvent.rel f => if f = fb then false else held)
    false

/-- Count of an event in a trace. -/
def countEv (tr : List LockEvent) (e : LockEvent) : Nat :=
  (tr.filter (fun x => decide (x = e))).length

/-- Modelled from the spec: the lock-acquisition order of
`DoubleFileLockGuard` (mutex.h, a file absent from the source), which
`DoubleAutoClosedFileLockGuard` (file_table.h lines 148-168) wraps: establish
a total order over File Objects by a stable identity key and acquire both
intrinsic locks in that order; when both are the same object, acquire its
lock exactly once. -/
def dualAcquireOrder (a b : Nat) : List Nat :=
  if a = b then [a]
  else if a < b then [a, b]
  else [b, a]

/-- `DoubleAutoClosedFileLockGuard` construction (file_table.h lines 154-166):
delegates to `DoubleFileLockGuard(*filebase1.get(), *filebase2.get())`,
acquiring in the total order; `none` when either handle is empty. -/
def DoubleAutoClosedFileLockGuardAcq (h1 h2 : AutoClosedFileBase) :
    Option (List Nat) :=
  match h1.m_fb, h2.m_fb with
  | some a, some b => some (dualAcquireOrder a b)
  | _, _ => none

/-- A two-thread circular wait on two locks: thread one holds `x` and waits
for `y` while thread two holds `y` and waits for `x`. Two threads that each
acquire two locks in the order given by their lists can deadlock exactly when
their lists cross-wait. -/
def crossWaitDeadlock (s t : List Nat) : Prop :=
  ∃ x y, x ≠ y ∧ s = [x, y] ∧ t = [y, x]

/-! ## Theorems -/

/-- C1 counterexample: move-assigning the handle `(ft 2, fb 20)` onto the
handle `(ft 1, fb 10)` leaves the moved-from source holding `(ft 1, fb 10)` —
its references are not null, and dropping it issues a close — refuting the
claim that every move nulls the source. -/
theorem move_assign_source_not_nulled :
    ¬ ((AutoClosedFileBase.moveAssign false (AutoClosedFileBase.mk (some 1) (some 10))
          (AutoClosedFileBase.mk (some 2) (some 20))).1.2.m_ft = none ∧
       (AutoClosedFileBase.moveAssign false (AutoClosedFileBase.mk (some 1) (some 10))
          (AutoClosedFileBase.mk (some 2) (some 20))).1.2.m_fb = none ∧
       ((AutoClosedFileBase.moveAssign false (AutoClosedFileBase.mk (some 1) (some 10))
          (AutoClosedFileBase.mk (some 2) (some 20))).1.2.destruct).2 = []) := by
  decide

/-- C1 amended: move construction nulls the source handle, whose drop then
issues no close; move assignment instead swaps the two handles' state — the
moved-from source takes the destination's previous references (null exactly
when the destination held nothing) — and self-move-assignment is a no-op;
neither form of move assignment issues a close by itself. -/
theorem move_construct_nulls_move_assign_swaps
    (other dest src selfh : AutoClosedFileBase) :
    (AutoClosedFileBase.moveConstruct other).1 = other ∧
    (AutoClosedFileBase.moveConstruct other).2 = AutoClosedFileBase.mk none none ∧
    ((AutoClosedFileBase.moveConstruct other).2.destruct).2 = [] ∧
    AutoClosedFileBase.moveAssign false dest src = ((src, dest), []) ∧
    AutoClosedFileBase.moveAssign true selfh selfh = ((selfh, selfh), []) :=
  ⟨rfl, rfl, rfl, rfl, rfl⟩

/-- C6: dropping a scoped handle never propagates a failure: for every handle
state and every outcome of the registry close call — including any error —
the destructor catches the error internally and returns normally. -/
theorem handle_drop_never_propagates (h : AutoClosedFileBase)
    (closeFn : Nat → Nat → Except Nat Unit) :
    h.destructE closeFn = Except.ok () := by
  obtain ⟨ft, fb⟩ := h
  cases ft with
  | none => cases fb <;> rfl
  | some a =>
    cases fb with
    | none => rfl
    | some b =>
      cases hc : closeFn a b <;>
        simp [AutoClosedFileBase.destructE, AutoClosedFileBase.resetE, hc]

/-- C7: for every handle holding a file object, `release` returns that
object-reference, leaves the handle's object-reference null, issues no close
call during the release, and the subsequent drop of the released handle
issues no close either — registry state is untouched. -/
theorem release_detaches_without_close (ft : Option Nat) (f : Nat) :
    ((AutoClosedFileBase.mk ft (some f)).release).1.1 = some f ∧
    ((AutoClosedFileBase.mk ft (some f)).release).1.2.m_fb = none ∧
    ((AutoClosedFileBase.mk ft (some f)).release).2 = [] ∧
    (((AutoClosedFileBase.mk ft (some f)).release).1.2.destruct).2 = [] := by
  cases ft <;> exact ⟨rfl, rfl, rfl, rfl⟩

/-- C10: move-assigning onto a handle that holds file object `f` neither
closes nor leaks it at assignment time — no close call is issued and the
moved-from source takes over `(ft, f)`; dropping that source then closes
`(ft, f)` exactly once, and a repeated drop or reset issues nothing more. -/
theorem move_assign_transfers_close_obligation (ft f : Nat)
    (src : AutoClosedFileBase) :
    (AutoClosedFileBase.moveAssign false
        (AutoClosedFileBase.mk (some ft) (some f)) src).2 = [] ∧
    (AutoClosedFileBase.moveAssign false
        (AutoClosedFileBase.mk (some ft) (some f)) src).1.2 =
      AutoClosedFileBase.mk (some ft) (some f) ∧
    ((AutoClosedFileBase.mk (some ft) (some f)).destruct).2 = [(ft, f)] ∧
    (((AutoClosedFileBase.mk (some ft) (some f)).destruct).1.destruct).2 = [] ∧
    ((((AutoClosedFileBase.mk (some ft) (some f)).destruct).1).reset none).2 = [] :=
  ⟨rfl, rfl, rfl, rfl, rfl⟩

lemma closesOf_append (a b : List (Nat × Nat)) (f0 : Nat) :
    closesOf (a ++ b) f0 = closesOf a f0 + closesOf b f0 := by
  simp [closesOf, List.filter_append]

/-- Each single handle operation closes the currently held object at most
once, and afterwards the handle holds the operation's new value. -/
lemma runOp_closes_le (ft : Option Nat) (fbv : Option Nat) (op : HandleOp) (f0 : Nat) :
    closesOf ((AutoClosedFileBase.mk ft fbv).runOp op).2 f0
      ≤ (if fbv = some f0 then 1 else 0) := by
  cases ft <;> cases fbv <;> cases op <;>
    simp [AutoClosedFileBase.runOp, AutoClosedFileBase.reset,
      AutoClosedFileBase.destruct, closesOf] <;>
    split <;> simp_all

/-- After a handle operation the handle holds exactly the operation's new
object value. -/
lemma runOp_m_fb (ft : Option Nat) (fbv : Option Nat) (op : HandleOp) :
    ((AutoClosedFileBase.mk ft fbv).runOp op).1.m_fb
      = (match op with | HandleOp.resetOp fb => fb | HandleOp.dropOp => none) := by
  cases ft <;> cases fbv <;> cases op <;>
    rfl

/-- Invariant for C2: provided no reset re-installs `f0`, a handle closes `f0`
at most once if it currently holds `f0`, and never otherwise. -/
lemma runOps_closes_bound (f0 : Nat) (ops : List HandleOp) :
    ∀ h : AutoClosedFileBase, (∀ fb, HandleOp.resetOp fb ∈ ops → fb ≠ some f0) →
      closesOf (h.runOps ops).2 f0 ≤ (if h.m_fb = some f0 then 1 else 0) := by
  induction ops with
  | nil =>
    intro h _
    simp [AutoClosedFileBase.runOps, closesOf]
  | cons op rest ih =>
    intro h hops
    obtain ⟨ft, fbv⟩ := h
    have hrest : ∀ fb, HandleOp.resetOp fb ∈ rest → fb ≠ some f0 :=
      fun fb hfb => hops fb (List.mem_cons_of_mem _ hfb)
    have hnew : ((AutoClosedFileBase.mk ft fbv).runOp op).1.m_fb ≠ some f0 := by
      rw [runOp_m_fb]
      cases op with
      | resetOp nf => exact hops nf (List.mem_cons_self _ _)
      | dropOp => simp
    have hsplit :
        closesOf ((AutoClosedFileBase.mk ft fbv).runOps (op :: rest)).2 f0
          = closesOf ((AutoClosedFileBase.mk ft fbv).runOp op).2 f0
            + closesOf (((AutoClosedFileBase.mk ft fbv).runOp op).1.runOps rest).2 f0 := by
      simp only [AutoClosedFileBase.runOps]
      exact closesOf_append _ _ _
    have h1 := runOp_closes_le ft fbv op f0
    have h2 := ih ((AutoClosedFileBase.mk ft fbv).runOp op).1 hrest
    rw [if_neg hnew] at h2
    rw [hsplit]
    simp only [AutoClosedFileBase.m_fb]
    omega

/-- C2: a scoped handle that holds file object `f0` closes it at most once no
matter how many reset and drop operations are subsequently exercised on the
handle (provided no reset re-installs `f0` itself): after the first close the
object-reference is null, so further resets and the destructor issue no close
of `f0`. -/
theorem handle_close_fires_at_most_once (ft f0 : Nat) (ops : List HandleOp)
    (hops : ∀ fb, HandleOp.resetOp fb ∈ ops → fb ≠ some f0) :
    closesOf ((AutoClosedFileBase.mk (some ft) (some f0)).runOps ops).2 f0 ≤ 1 := by
  have hb := runOps_closes_bound f0 ops (AutoClosedFileBase.mk (some ft) (some f0)) hops
  simpa using hb

/-- Witness for C2 at a concrete input: handle `(ft 1, fb 5)`, exercised by a
drop, then a reset to empty, then another drop, closes object 5 at most
once. -/
theorem handle_close_fires_at_most_once_witness :
    closesOf ((AutoClosedFileBase.mk (some 1) (some 5)).runOps
      [HandleOp.dropOp, HandleOp.resetOp none, HandleOp.dropOp]).2 5 ≤ 1 :=
  handle_close_fires_at_most_once 1 5
    [HandleOp.dropOp, HandleOp.resetOp none, HandleOp.dropOp]
    (by
      intro fb hfb
      simp only [List.mem_cons, List.not_mem_nil, or_false] at hfb
      rcases hfb with h | h | h <;> simp_all)

lemma dualAcquireOrder_comm (a b : Nat) :
    dualAcquireOrder a b = dualAcquireOrder b a := by
  rcases Nat.lt_trichotomy a b with h | h | h
  · have hne : a ≠ b := Nat.ne_of_lt h
    have hnb : ¬ b < a := by omega
    simp [dualAcquireOrder, hne, Ne.symm hne, h, hnb]
  · subst h; rfl
  · have hne : b ≠ a := Nat.ne_of_lt h
    have hna : ¬ a < b := by omega
    simp [dualAcquireOrder, hne, Ne.symm hne, h, hna]

lemma not_crossWait_of_eq (s t : List Nat) (hst : s = t) :
    ¬ crossWaitDeadlock s t := by
  subst hst
  rintro ⟨x, y, hxy, hs, ht⟩
  rw [hs] at ht
  simp only [List.cons.injEq, and_true] at ht
  exact hxy ht.1

/-- C8: the dual-object lock scope acquires the two intrinsic locks in a total
order independent of argument order — so two threads locking the pairs (A,B)
and (B,A) produce identical acquisition sequences and can never cross-wait
(deadlock) — and a self-pair acquires the object's lock exactly once; the
handle-level guard constructor inherits the argument-order independence. -/
theorem dual_lock_order_independent (a b : Nat) (h1 h2 : AutoClosedFileBase) :
    dualAcquireOrder a b = dualAcquireOrder b a ∧
    ¬ crossWaitDeadlock (dualAcquireOrder a b) (dualAcquireOrder b a) ∧
    dualAcquireOrder a a = [a] ∧
    (dualAcquireOrder a a).count a = 1 ∧
    DoubleAutoClosedFileLockGuardAcq h1 h2 = DoubleAutoClosedFileLockGuardAcq h2 h1 := by
  refine ⟨dualAcquireOrder_comm a b,
    not_crossWait_of_eq _ _ (dualAcquireOrder_comm a b), ?_, ?_, ?_⟩
  · simp [dualAcquireOrder]
  · simp [dualAcquireOrder]
  · obtain ⟨ft1, fb1⟩ := h1
    obtain ⟨ft2, fb2⟩ := h2
    cases fb1 <;> cases fb2 <;>
      simp [DoubleAutoClosedFileLockGuardAcq, dualAcquireOrder_comm]

/-- C9: the single-object lock scope acquires the referenced file object's
intrinsic lock exactly once on construction (first event of the trace; one
acquisition beyond whatever the body itself does), releases that same lock
on scope exit whatever the body's outcome — the lock is not held at the end
of the trace on any exit path, normal or failing — and passes the body's
outcome through unchanged. -/
theorem lock_scope_acquires_once_releases_always (fb : Nat)
    (bodyEvents : List LockEvent) (bodyResult : Except Nat Unit) :
    (lockScope fb bodyEvents bodyResult).1.head? = some (LockEvent.acq fb) ∧
    heldAfter (lockScope fb bodyEvents bodyResult).1 fb = false ∧
    countEv (lockScope fb bodyEvents bodyResult).1 (LockEvent.acq fb)
      = countEv bodyEvents (LockEvent.acq fb) + 1 ∧
    countEv (lockScope fb bodyEvents bodyResult).1 (LockEvent.rel fb)
      = countEv bodyEvents (LockEvent.rel fb) + 1 ∧
    (lockScope fb bodyEvents bodyResult).2 = bodyResult := by
  refine ⟨rfl, ?_, ?_, ?_, rfl⟩
  · simp [lockScope, heldAfter, List.foldl_append]
  · simp [lockScope, countEv, List.filter_append]
  · simp [lockScope, countEv, List.filter_append]

lemma containsId_iff (l : List Nat) (v : Nat) : containsId l v = true ↔ v ∈ l := by
  induction l with
  | nil => simp [containsId]
  | cons x rest ih =>
    by_cases hx : x = v
    · subst hx
      simp [containsId]
    · simp [containsId, hx, ih, Ne.symm hx]

lemma lookupFile_filter_evicted (files : List (Nat × FileEnt)) (victims : List Nat)
    (v : Nat) (hv : v ∈ victims) :
    lookupFile (files.filter (fun p => !(containsId victims p.1))) v = none := by
  induction files with
  | nil => rfl
  | cons p rest ih =>
    by_cases hp : containsId victims p.1 = true
    · simpa [List.filter_cons, hp] using ih
    · have hne : p.1 ≠ v := by
        intro he
        exact hp ((containsId_iff victims p.1).mpr (he ▸ hv))
      simp [List.filter_cons, hp, lookupFile, hne, ih]

/-- C3: starting from a state whose idle sequence respects the bound, after
any close call the idle sequence length still never exceeds
`MAX_NUM_CLOSED = 101`; and whenever the close evicts at all, it evicts
exactly the `NUM_EJECT = 8` oldest idle entries, each of which is removed
from the table (finalization is the returned eviction list itself). -/
theorem close_idle_bound (s : FTState) (id : Nat)
    (hlen : s.m_closed_ids.length ≤ MAX_NUM_CLOSED) :
    (s.close id).1.m_closed_ids.length ≤ MAX_NUM_CLOSED ∧
    ((s.close id).2 ≠ [] →
      (s.close id).2.length = NUM_EJECT ∧
      (s.close id).2 = (s.m_closed_ids ++ [id]).take NUM_EJECT ∧
      ∀ v ∈ (s.close id).2, lookupFile (s.close id).1.m_files v = none) := by
  cases hlk : lookupFile s.m_files id with
  | none =>
    simp [FTState.close, hlk, hlen]
  | some ent =>
    have hcl : (s.m_closed_ids ++ [id]).length = s.m_closed_ids.length + 1 := by simp
    by_cases href : ent.refcount ≤ 1
    · by_cases hcap : MAX_NUM_CLOSED < (s.m_closed_ids ++ [id]).length
      · have hc : s.close id
            = (FTState.mk s.m_flags
                ((setFile s.m_files id (FileEnt.mk ent.ty 0)).filter
                  (fun p => !(containsId ((s.m_closed_ids ++ [id]).take NUM_EJECT) p.1)))
                ((s.m_closed_ids ++ [id]).drop NUM_EJECT),
              (s.m_closed_ids ++ [id]).take NUM_EJECT) := by
          simp only [FTState.close, hlk]
          rw [if_pos href, if_pos hcap]
          simp only [FTState.eject]
        have hlen' : s.m_closed_ids.length ≤ 101 := by
          simpa [MAX_NUM_CLOSED] using hlen
        have hcap' : 101 < s.m_closed_ids.length + 1 := by
          have h2 := hcap
          rw [hcl] at h2
          simpa [MAX_NUM_CLOSED] using h2
        rw [hc]
        refine ⟨?_, fun _ => ⟨?_, rfl, ?_⟩⟩
        · simp only [List.length_drop, hcl, MAX_NUM_CLOSED, NUM_EJECT]
          omega
        · simp only [List.length_take, hcl, NUM_EJECT]
          omega
        · intro v hv
          exact lookupFile_filter_evicted _ _ v hv
      · have hc : s.close id
            = (FTState.mk s.m_flags (setFile s.m_files id (FileEnt.mk ent.ty 0))
                (s.m_closed_ids ++ [id]), []) := by
          simp only [FTState.close, hlk]
          rw [if_pos href, if_neg hcap]
        rw [hc]
        exact ⟨Nat.le_of_not_lt hcap, fun hne => absurd rfl hne⟩
    · have hc : s.close id
          = (FTState.mk s.m_flags
              (setFile s.m_files id (FileEnt.mk ent.ty (ent.refcount - 1)))
              s.m_closed_ids, []) := by
        simp only [FTState.close, hlk]
        rw [if_neg href]
      rw [hc]
      exact ⟨hlen, fun hne => absurd rfl hne⟩

/-- Witness for C3 at a concrete input: a table whose idle sequence holds the
101 identifiers 0..100 and one resident object 500 with reference count 1;
closing 500 crosses the threshold, the idle sequence stays within the bound,
and exactly 8 entries are evicted. -/
theorem close_idle_bound_witness :
    ((FTState.mk 0 [(500, FileEnt.mk 2 1)] (List.range 101)).close 500).1.m_closed_ids.length
        ≤ MAX_NUM_CLOSED ∧
    ((FTState.mk 0 [(500, FileEnt.mk 2 1)] (List.range 101)).close 500).2.length = NUM_EJECT :=
  ⟨(close_idle_bound (FTState.mk 0 [(500, FileEnt.mk 2 1)] (List.range 101)) 500
      (by simp [MAX_NUM_CLOSED])).1,
   ((close_idle_bound (FTState.mk 0 [(500, FileEnt.mk 2 1)] (List.range 101)) 500
      (by simp [MAX_NUM_CLOSED])).2 (by decide)).1⟩

/-- C4: opening an absent identifier without create fails with NotFound when
the backend has no such object; a resident object whose concrete type differs
from the declared type makes the operation fail with TypeMismatch (the error
result carries no state, so the caller's table state is untouched); and a
backend/constructor failure is propagated unchanged to the caller. -/
theorem open_error_paths (s : FTState) (backend : List (Nat × Nat)) (id ty : Nat)
    (ent : FileEnt) (code : Nat) (bfail : Option Nat) (create : Bool) :
    (lookupFile s.m_files id = none → lookupDisk backend id = none →
      s.open_or_create backend none id ty false = Except.error FTError.notFoundE) ∧
    (lookupFile s.m_files id = some ent → ent.ty ≠ ty →
      s.open_or_create backend bfail id ty create = Except.error FTError.typeMismatchE) ∧
    (lookupFile s.m_files id = none →
      s.open_or_create backend (some code) id ty create
        = Except.error (FTError.backendE code)) := by
  refine ⟨?_, ?_, ?_⟩
  · intro h1 h2
    simp [FTState.open_or_create, h1, materialize, h2]
  · intro h1 h2
    simp [FTState.open_or_create, h1, h2]
  · intro h1
    simp [FTState.open_or_create, h1, materialize]

/-- Witness for C4 at concrete inputs: an empty table and empty backend give
NotFound on a plain open; a resident object of type 2 opened as type 1 gives
TypeMismatch; a failing backend propagates its error code 3 unchanged. -/
theorem open_error_paths_witness :
    (FTState.mk 0 [] []).open_or_create [] none 7 1 false
      = Except.error FTError.notFoundE ∧
    (FTState.mk 0 [(7, FileEnt.mk 2 1)] []).open_or_create [] none 7 1 false
      = Except.error FTError.typeMismatchE ∧
    (FTState.mk 0 [] []).open_or_create [] (some 3) 7 1 true
      = Except.error (FTError.backendE 3) :=
  ⟨(open_error_paths (FTState.mk 0 [] []) [] 7 1 (FileEnt.mk 0 0) 3 none false).1 rfl rfl,
   (open_error_paths (FTState.mk 0 [(7, FileEnt.mk 2 1)] []) [] 7 1
      (FileEnt.mk 2 1) 3 none false).2.1 rfl (by decide),
   (open_error_paths (FTState.mk 0 [] []) [] 7 1 (FileEnt.mk 0 0) 3
      (some 3) true).2.2 rfl⟩

lemma close_m_flags (s : FTState) (id : Nat) :
    ((s.close id)).1.m_flags = s.m_flags := by
  cases hlk : lookupFile s.m_files id with
  | none => simp [FTState.close, hlk]
  | some ent =>
    simp only [FTState.close, hlk]
    split
    · split
      · rfl
      · rfl
    · rfl

lemma open_or_create_m_flags (s : FTState) (backend : List (Nat × Nat))
    (bfail : Option Nat) (id ty : Nat) (create : Bool) (s2 : FTState) (r : Nat)
    (h : s.open_or_create backend bfail id ty create = Except.ok (s2, r)) :
    s2.m_flags = s.m_flags := by
  cases hlk : lookupFile s.m_files id with
  | some ent =>
    simp only [FTState.open_or_create, hlk] at h
    by_cases hty : ent.ty = ty
    · rw [if_pos hty] at h
      simp only [Except.ok.injEq, Prod.mk.injEq] at h
      rw [← h.1]
    · rw [if_neg hty] at h
      exact absurd h (by simp)
  | none =>
    simp only [FTState.open_or_create, hlk] at h
    cases hm : materialize backend bfail id ty create with
    | error e =>
      rw [hm] at h
      exact absurd h (by simp)
    | ok ent =>
      rw [hm] at h
      simp only [Except.ok.injEq, Prod.mk.injEq] at h
      rw [← h.1]

/-- C5: the three configuration queries are pure functions of the immutable
construction-time flags — is_readonly is true iff the read-only bit is set,
is_auth_enabled is true iff the no-authentication bit is not set,
is_time_stored is true iff the store-time bit is set — and their results are
unchanged by the state-mutating table operations close and open/create over
the table's lifetime. -/
theorem config_queries_pure (s : FTState) (backend : List (Nat × Nat))
    (bfail : Option Nat) (id ty : Nat) (create : Bool) (s2 : FTState) (r : Nat) :
    (s.is_readonly = true ↔ s.m_flags &&& kOptionReadOnly ≠ 0) ∧
    (s.is_auth_enabled = true ↔ s.m_flags &&& kOptionNoAuthentication = 0) ∧
    (s.is_time_stored = true ↔ s.m_flags &&& kOptionStoreTime ≠ 0) ∧
    ((s.close id).1.is_readonly = s.is_readonly ∧
      (s.close id).1.is_auth_enabled = s.is_auth_enabled ∧
      (s.close id).1.is_time_stored = s.is_time_stored) ∧
    (s.open_or_create backend bfail id ty create = Except.ok (s2, r) →
      s2.is_readonly = s.is_readonly ∧ s2.is_auth_enabled = s.is_auth_enabled ∧
      s2.is_time_stored = s.is_time_stored) := by
  refine ⟨?_, ?_, ?_, ?_, ?_⟩
  · simp [FTState.is_readonly]
  · simp [FTState.is_auth_enabled]
  · simp [FTState.is_time_stored]
  · have hf := close_m_flags s id
    exact ⟨by simp [FTState.is_readonly, hf], by simp [FTState.is_auth_enabled, hf],
      by simp [FTState.is_time_stored, hf]⟩
  · intro h
    have hf := open_or_create_m_flags s backend bfail id ty create s2 r h
    exact ⟨by simp [FTState.is_readonly, hf], by simp [FTState.is_auth_enabled, hf],
      by simp [FTState.is_time_stored, hf]⟩

/-- Witness for C5 at a concrete input: a table constructed with flags 5
(read-only and store-time bits set), after a successful open that inserts
object 9, reports the same three configuration answers as before. -/
theorem config_queries_pure_witness :
    (FTState.mk 5 [(9, FileEnt.mk 4 1)] []).is_readonly
        = (FTState.mk 5 [] []).is_readonly ∧
    (FTState.mk 5 [(9, FileEnt.mk 4 1)] []).is_auth_enabled
        = (FTState.mk 5 [] []).is_auth_enabled ∧
    (FTState.mk 5 [(9, FileEnt.mk 4 1)] []).is_time_stored
        = (FTState.mk 5 [] []).is_time_stored :=
  (config_queries_pure (FTState.mk 5 [] []) [(9, 4)] none 9 4 false
    (FTState.mk 5 [(9, FileEnt.mk 4 1)] []) 9).2.2.2.2 rfl

end securefs
